import Mathlib

/-!
# Pi Streamer front end (`src/frontend/src/App.jsx`)

A shallow embedding of the stream client of `App.jsx`: the number formatter
`formatNumber`, the derived display values of the render (`currentPrecision`, the
three segments of the pi display), and the three EventSource handlers together with
`connectStream`.

Conventions.

* JavaScript strings are Lean strings; a character stands for one UTF-16 code unit,
  so `length`, `slice` and `split` are counted in characters.  Every text the
  statements below quantify over by its shape is ASCII (digits, `.` and `,`).
* `Date.now()` is an explicit integer argument `now` (milliseconds).
* The React state of the component is the record `AppState`.  A function created
  during a render (`connectStream`, and the handlers it installs) reads the state
  variables of *that* render; this set of bindings is passed explicitly as `env`.
* EventSource objects live in a list indexed by creation order; a handle is an index.
-/

namespace PiStream

/-! ## Constants -/

/-- The constant `MAX_DIGITS` of line 5. -/
def MAX_DIGITS : Nat := 100

/-! ## `formatNumber` (lines 8-19) -/

/-- The class `\w` of a JavaScript regular expression: ASCII letters, digits and `_`. -/
def isWordChar (c : Char) : Bool :=
  c.isAlphanum || c == '_'

/-- The assertion `\B` between a preceding character `prev` and a following character
`next` (`none` at either end of the text): the position is not a word boundary,
that is, both sides are word characters or neither is. -/
def notWordBoundary (prev next : Option Char) : Bool :=
  (prev.map isWordChar).getD false == (next.map isWordChar).getD false

/-- The assertion `(?!\d)` at the start of `cs`: the next character is not a digit. -/
def notFollowedByDigit : List Char → Bool
  | [] => true
  | c :: _ => !c.isDigit

/-- The pattern `(\d{3})+(?!\d)` matched at the start of `cs`: one group of three
digits, after which either the negative lookahead holds or further groups follow. -/
def threeDigitGroups : List Char → Bool
  | a :: b :: c :: rest =>
      a.isDigit && b.isDigit && c.isDigit && (notFollowedByDigit rest || threeDigitGroups rest)
  | _ => false

/-- The call `.replace(/\B(?=(\d{3})+(?!\d))/g, ',')` of line 13, scanning the text
from left to right; `prev` is the character before the current position.  The pattern
is zero-width, so every position is tried and each match inserts one `,`.  At the end
of the text the lookahead needs three digits and cannot match. -/
def replaceThousands (prev : Option Char) : List Char → List Char
  | [] => []
  | c :: rest =>
      (if notWordBoundary prev (some c) && threeDigitGroups (c :: rest) then [','] else [])
        ++ c :: replaceThousands (some c) rest

/-- The call `.split('.')` of lines 12 and 176: the pieces between the dots; the
result always has a first element. -/
def splitDot : List Char → List (List Char)
  | [] => [[]]
  | c :: cs =>
      if c = '.' then [] :: splitDot cs
      else
        match splitDot cs with
        | [] => [[c]]
        | p :: ps => (c :: p) :: ps

/-- The body of `formatNumber` after the guard of line 9 (lines 12-18), on the
characters of `numStr`. -/
def formatParts (cs : List Char) : List Char :=
  let parts := splitDot cs
  let integerPart := replaceThousands none (parts.headD [])
  let decimalPart := (parts.tail.head?).getD []
  if decimalPart ≠ [] then integerPart ++ '.' :: decimalPart else integerPart

/-- The function `formatNumber` of lines 8-19 applied to a string: the empty string
(`!numStr`) and a string that contains `e` are returned as they are. -/
def formatNumber (numStr : String) : String :=
  if numStr.data = [] ∨ 'e' ∈ numStr.data then numStr
  else String.mk (formatParts numStr.data)

/-- The reading of "thousands separators" on the reversed digits: after every
complete group of three characters that is followed by another character, a `,`. -/
def sepEveryThree : List Char → List Char
  | a :: b :: c :: d :: rest => a :: b :: c :: ',' :: sepEveryThree (d :: rest)
  | cs => cs

/-- The integer digits with a `,` between every group of three digits counted from
the right. -/
def groupThousands (digits : List Char) : List Char :=
  (sepEveryThree digits.reverse).reverse

/-- A comma when `rest` is a non-empty run whose length is a multiple of three, and
nothing otherwise (auxiliary, used to relate the two descriptions of the grouping). -/
def commaBefore (rest : List Char) : List Char :=
  if rest ≠ [] ∧ rest.length % 3 = 0 then [','] else []

/-- The grouping described from the left: each character is followed by a comma
exactly when a positive multiple of three characters remains (auxiliary). -/
def groupByLength : List Char → List Char
  | [] => []
  | c :: rest => c :: (commaBefore rest ++ groupByLength rest)

/-! ## Derived display values of the render (lines 28-31 and 175-180) -/

/-- The value `currentPrecision` of line 30 for a string `pi`. -/
def currentPrecision (pi : String) : Nat :=
  if pi.length > 2 then pi.length - 2 else 0

/-- The three spans of the pi display (lines 233-237). -/
structure PiSegments where
  integerPart : String
  calculatedDigits : String
  paddingZeros : String
  deriving DecidableEq, Repr

/-- Lines 176-180: `piParts`, `integerPart`, `decimalPart`, `calculatedDigits` and
`paddingZeros`, for a string `pi`.  `slice(0, n)` keeps the first `n` characters and
`slice(n)` drops them. -/
def piSegments (pi : String) : PiSegments :=
  let piParts := splitDot pi.data
  let integerPart := piParts.headD [] ++ ['.']
  let decimalPart := (piParts.tail.head?).getD []
  { integerPart := String.mk integerPart
    calculatedDigits := String.mk (decimalPart.take (currentPrecision pi))
    paddingZeros := String.mk (decimalPart.drop (currentPrecision pi)) }

/-! ## State of the component -/

/-- The values of the `status` state variable (line 25). -/
inductive Status where
  | IDLE
  | CONNECTING
  | ACTIVE
  | ERROR
  | COMPLETE
  deriving DecidableEq, Repr

/-- A JavaScript value as `JSON.parse` produces it, together with `undefined` (the
value of a missing property).  A number keeps the text of its literal; an object is
the list of its own properties. -/
inductive JSValue where
  | undefined
  | null
  | bool (b : Bool)
  | number (literal : String)
  | string (s : String)
  | array (elems : List JSValue)
  | object (fields : List (String × JSValue))

/-- The state variables of `App` (lines 23-26 and 34-35).  `eventSource` is `none` for
`null` and otherwise the handle of an EventSource object. -/
structure AppState where
  pi : JSValue
  circumference : JSValue
  status : Status
  error : String
  eventSource : Option Nat
  lastMessageTime : Int

/-- One EventSource object: whether it is still open (`close()` has not been called
on it) and the bindings `env` of the render in which the `connectStream` that created
it was defined; its `onerror` handler reads `lastMessageTime` and `status` from there. -/
structure Source where
  isOpen : Bool
  env : AppState

/-- The React state together with every EventSource object created so far; the handle
of an object is its position in `sources`. -/
structure World where
  state : AppState
  sources : List Source

/-- The call `close()` on the EventSource with handle `h`. -/
def closeHandle : Nat → List Source → List Source
  | _, [] => []
  | 0, s :: rest => { s with isOpen := false } :: rest
  | h + 1, s :: rest => s :: closeHandle h rest

/-- Whether the EventSource with handle `h` exists and is open. -/
def World.isOpen (w : World) (h : Nat) : Bool :=
  match w.sources[h]? with
  | some s => s.isOpen
  | none => false

/-- The handles of all EventSource objects that are open. -/
def World.openHandles (w : World) : List Nat :=
  (List.range w.sources.length).filter w.isOpen

/-! ## `connectStream` and the handlers it installs (lines 37-115) -/

/-- The function `connectStream` of lines 37-115, as defined in a render with bindings
`env`: the `eventSource` tested and closed in lines 38-41 is the one of `env`.
`ctorThrows` says whether `new EventSource(API_STREAM_URL)` throws (the `catch` of
lines 109-113).  The new object gets the next handle and its handlers close over
`env`.  The cleanup function returned in lines 104-107 is dropped by both callers
(lines 118 and 199) and is not part of the result. -/
def connectStream (env : AppState) (ctorThrows : Bool) (w : World) : World :=
  let w1 : World :=
    match env.eventSource with
    | some h => { state := { w.state with eventSource := none }, sources := closeHandle h w.sources }
    | none => w
  let st : AppState := { w1.state with status := .CONNECTING, error := "" }
  if ctorThrows then
    { state := { st with error := "Failed to initialize connection. Check backend URL.",
                         status := .ERROR }
      sources := w1.sources }
  else
    { state := { st with eventSource := some w1.sources.length }
      sources := w1.sources ++ [{ isOpen := true, env := env }] }

/-- The handler `onopen` of lines 50-53. -/
def onopen (w : World) : World :=
  { w with state := { w.state with status := .ACTIVE } }

/-- Reading the property `key` (`pi` or `circumference`) of a parsed value: `none` is
the TypeError raised for `null` and `undefined`; a value without such a property
(an object that lacks it, a string, a number, a boolean, an array) gives `undefined`. -/
def JSValue.prop : JSValue → String → Option JSValue
  | .undefined, _ => none
  | .null, _ => none
  | .object fields, key => some ((fields.lookup key).getD .undefined)
  | _, _ => some .undefined

/-- The test `data.pi.length - 2 >= MAX_DIGITS` of lines 62-63 for the value `p` of
`data.pi`.  `none` is the TypeError of reading `length` from `undefined` or `null`.
A string and an array have a numeric `length`; a number and a boolean have none, so
the difference is `NaN` and the test is false, as for an object without a `length`
property.  For an object with its own `length` property the test coerces that value
to a number, which is the business of the JavaScript runtime: `coerce` gives its
outcome. -/
def precisionReached (coerce : JSValue → Bool) : JSValue → Option Bool
  | .undefined => none
  | .null => none
  | .string s => some (decide ((s.length : Int) - 2 ≥ (MAX_DIGITS : Int)))
  | .array elems => some (decide ((elems.length : Int) - 2 ≥ (MAX_DIGITS : Int)))
  | .object fields =>
      match fields.lookup "length" with
      | some v => some (coerce v)
      | none => some false
  | _ => some false

/-- The `catch` block of lines 69-73, applied to the state as it is when the
exception is raised. -/
def onmessageCatch (st : AppState) : AppState :=
  { st with error := "Failed to parse incoming data.", status := .ERROR }

/-- The handler `onmessage` of lines 55-74 of the EventSource with handle `h`.
`parsed` is the outcome of `JSON.parse(event.data)`, `none` when it throws; `now` is
the value of `Date.now()` in line 60.  The three setters of lines 58-60 have been
called when line 62 is evaluated, so an exception raised there finds the state
already updated. -/
def onmessage (coerce : JSValue → Bool) (h : Nat) (parsed : Option JSValue) (now : Int)
    (w : World) : World :=
  match parsed with
  | none => { w with state := onmessageCatch w.state }
  | some data =>
    match data.prop "pi" with
    | none => { w with state := onmessageCatch w.state }
    | some p =>
      let st : AppState :=
        { w.state with
            pi := p
            circumference := (data.prop "circumference").getD .undefined
            lastMessageTime := now }
      match precisionReached coerce p with
      | none => { w with state := onmessageCatch st }
      | some true =>
          { state := { st with status := .COMPLETE }, sources := closeHandle h w.sources }
      | some false => { w with state := { st with status := .ACTIVE } }

/-- The handler `onerror` of lines 76-101 of the EventSource with handle `h`, installed
by a `connectStream` with bindings `env`: `lastMessageTime` (line 80) and `status`
(line 88) are read from `env`; `now` is the value of `Date.now()`.  All three branches
close the object and call `setEventSource(null)`. -/
def onerror (env : AppState) (h : Nat) (now : Int) (w : World) : World :=
  let timeSinceLastMessage := now - env.lastMessageTime
  let closed : World :=
    { state := { w.state with eventSource := none }, sources := closeHandle h w.sources }
  if timeSinceLastMessage < 5000 then closed
  else if env.status = .COMPLETE then closed
  else
    { closed with
        state := { closed.state with
                     error := "Connection lost. Please ensure the worker is running."
                     status := .ERROR } }

/-! ## The mounted component

`connectStream` is wrapped in `useCallback` with the dependency list
`[MAX_DIGITS, currentPrecision]` (line 115): a render keeps the function of the
previous render, with the bindings of the render that created it, unless
`currentPrecision` has changed.  The state updates of one handler are applied together
and followed by one render. -/

/-- The component between two events: the world, and the bindings `callback` and the
dependency value `deps` of the `connectStream` currently in use (the one the button of
line 199 calls). -/
structure System where
  world : World
  callback : AppState
  deps : Nat

/-- What the stream and the user deliver: a click on the Reconnect button, and the
`open`, `message` and `error` events of the EventSource with handle `h`. -/
inductive Event where
  | reconnect
  | opened (h : Nat)
  | message (h : Nat) (parsed : Option JSValue) (now : Int)
  | failed (h : Nat) (now : Int)

/-- The initial values of the state variables; `t0` is the `Date.now()` of line 35. -/
def initialState (t0 : Int) : AppState :=
  { pi := .string "3"
    circumference := .string "0"
    status := .IDLE
    error := ""
    eventSource := none
    lastMessageTime := t0 }

/-- Whether `formatNumber(circumference)` of line 252 returns at line 9 for a value
that is not a string: `undefined`, `null` and `false` are falsy, so `!numStr` holds and
the value is returned and rendered as nothing. -/
def returnsAtGuard : JSValue → Bool
  | .undefined => true
  | .null => true
  | .bool false => true
  | _ => false

/-- The memoization of line 115 in the render of a state whose `pi` is the string
`pi`: `useCallback` keeps `callback` when `currentPrecision` equals `deps` and
otherwise takes the function of this render. -/
def memoize (callback : AppState) (deps : Nat) (w : World) (pi : String) : System :=
  if currentPrecision pi = deps then { world := w, callback := callback, deps := deps }
  else { world := w, callback := w.state, deps := currentPrecision pi }

/-- The render that follows a handler.  It is modelled for a `pi` that is a string and
a `circumference` that is a string or a value for which `formatNumber` returns at
line 9.  The result is `none` otherwise: for a `pi` that is not a string lines 30 and
176 throw, and what line 9 and line 12 do with a `circumference` of another kind
(`true`, a number, an array, an object) is not modelled. -/
def rerender (callback : AppState) (deps : Nat) (w : World) : Option System :=
  match w.state.pi, w.state.circumference with
  | .string pi, .string _ => some (memoize callback deps w pi)
  | .string pi, c => if returnsAtGuard c then some (memoize callback deps w pi) else none
  | _, _ => none

/-- The first render and the effect of lines 117-126, which calls the `connectStream`
of that render. -/
def mount (t0 : Int) : System :=
  { world := connectStream (initialState t0) false { state := initialState t0, sources := [] }
    callback := initialState t0
    deps := currentPrecision "3" }

/-- One event.  An EventSource that is closed, or does not exist, dispatches nothing.
The URL of line 4 is a constant absolute URL, for which the constructor does not
throw. -/
def step (coerce : JSValue → Bool) (sys : System) : Event → Option System
  | .reconnect => rerender sys.callback sys.deps (connectStream sys.callback false sys.world)
  | .opened h =>
      if sys.world.isOpen h then rerender sys.callback sys.deps (onopen sys.world) else some sys
  | .message h parsed now =>
      if sys.world.isOpen h then
        rerender sys.callback sys.deps (onmessage coerce h parsed now sys.world)
      else some sys
  | .failed h now =>
      match sys.world.sources[h]? with
      | some src =>
          if src.isOpen then rerender sys.callback sys.deps (onerror src.env h now sys.world)
          else some sys
      | none => some sys

/-- A sequence of events, from left to right. -/
def run (coerce : JSValue → Bool) : System → List Event → Option System
  | sys, [] => some sys
  | sys, e :: es => (step coerce sys e).bind fun next => run coerce next es

/-- The status shown and the error text of the banner (lines 192-197 and 209-214). -/
def System.shown (sys : System) : Status × String :=
  (sys.world.state.status, sys.world.state.error)

/-! ## Sample values used in the concrete statements -/

/-- The world after a mount at time `0` and the `open` event of the first connection:
status ACTIVE, no error, one open EventSource (handle `0`). -/
def activeWorld : World :=
  onopen (mount 0).world

/-- A well-formed payload with one fractional digit. -/
def shortPayload : JSValue :=
  .object [("pi", .string "3.1"), ("circumference", .string "2185696.9")]

/-- A well-formed payload whose `pi` has exactly one hundred fractional digits. -/
def fullPayload : JSValue :=
  .object
    [("pi", .string (String.mk ('3' :: '.' :: List.replicate 100 '1'))),
     ("circumference", .string "4371393.8")]

end PiStream

open PiStream

/-! ## Auxiliary lemmas -/

theorem threeDigitGroups_of_digits (cs : List Char) (h : ∀ c ∈ cs, c.isDigit = true) :
    threeDigitGroups cs = decide (cs ≠ [] ∧ cs.length % 3 = 0) := by
  induction cs using threeDigitGroups.induct with
  | case1 a b c rest ih =>
    have hr : ∀ x ∈ rest, x.isDigit = true := fun x hx => h x (by simp [hx])
    have ha := h a (by simp)
    have hb := h b (by simp)
    have hc := h c (by simp)
    rw [threeDigitGroups, ih hr, ha, hb, hc]
    cases rest with
    | nil => simp [notFollowedByDigit]
    | cons d t =>
      have hd := h d (by simp)
      simp [notFollowedByDigit, hd]
      omega
  | case2 cs hne =>
    match cs, hne with
    | [], _ => simp [threeDigitGroups]
    | [a], _ => simp [threeDigitGroups]
    | [a, b], _ => simp [threeDigitGroups]
    | a :: b :: c :: rest, hne => exact absurd rfl (hne a b c rest)

theorem isWordChar_of_isDigit (c : Char) (h : c.isDigit = true) : isWordChar c = true := by
  simp [isWordChar, Char.isAlphanum, h]

theorem replaceThousands_some_digits (cs : List Char) (p : Char) (hp : p.isDigit = true)
    (h : ∀ c ∈ cs, c.isDigit = true) :
    replaceThousands (some p) cs = commaBefore cs ++ groupByLength cs := by
  induction cs generalizing p with
  | nil => simp [replaceThousands, commaBefore, groupByLength]
  | cons c rest ih =>
    have hc := h c (by simp)
    have hr : ∀ x ∈ rest, x.isDigit = true := fun x hx => h x (by simp [hx])
    rw [replaceThousands, ih c hc hr, threeDigitGroups_of_digits _ h]
    simp [notWordBoundary, isWordChar_of_isDigit, hp, hc, commaBefore, groupByLength]

theorem replaceThousands_none_digits (cs : List Char) (h : ∀ c ∈ cs, c.isDigit = true) :
    replaceThousands none cs = groupByLength cs := by
  cases cs with
  | nil => simp [replaceThousands, groupByLength]
  | cons c rest =>
    have hc := h c (by simp)
    have hr : ∀ x ∈ rest, x.isDigit = true := fun x hx => h x (by simp [hx])
    rw [replaceThousands, replaceThousands_some_digits rest c hc hr]
    simp [notWordBoundary, isWordChar_of_isDigit, hc, groupByLength]

theorem sepEveryThree_snoc (xs : List Char) (c : Char) :
    sepEveryThree (xs ++ [c]) = sepEveryThree xs ++ (commaBefore xs ++ [c]) := by
  induction xs using sepEveryThree.induct with
  | case1 a b c1 d rest ih =>
    have e : commaBefore (a :: b :: c1 :: d :: rest) = commaBefore (d :: rest) := by
      have m : (rest.length + 1 + 1 + 1 + 1) % 3 = (rest.length + 1) % 3 := by omega
      simp [commaBefore, m]
    simp only [List.cons_append, sepEveryThree] at ih ⊢
    rw [e]
    simpa using ih
  | case2 cs hne =>
    match cs, hne with
    | [], _ => simp [sepEveryThree, commaBefore]
    | [a], _ => simp [sepEveryThree, commaBefore]
    | [a, b], _ => simp [sepEveryThree, commaBefore]
    | [a, b, c1], _ => simp [sepEveryThree, commaBefore]
    | a :: b :: c1 :: d :: rest, hne => exact absurd rfl (hne a b c1 d rest)

theorem groupThousands_eq_groupByLength (cs : List Char) :
    groupThousands cs = groupByLength cs := by
  induction cs with
  | nil => simp [groupThousands, sepEveryThree, groupByLength]
  | cons c rest ih =>
    have e : commaBefore rest.reverse = commaBefore rest := by simp [commaBefore]
    have r : (commaBefore rest).reverse = commaBefore rest := by
      unfold commaBefore; split <;> simp
    unfold groupThousands at ih ⊢
    rw [List.reverse_cons, sepEveryThree_snoc, e]
    simp [groupByLength, ih, r]

theorem splitDot_of_no_dot (cs : List Char) (h : '.' ∉ cs) : splitDot cs = [cs] := by
  induction cs with
  | nil => rfl
  | cons c rest ih =>
    have hc : c ≠ '.' := fun e => h (by simp [e])
    have hr : '.' ∉ rest := fun m => h (by simp [m])
    simp [splitDot, hc, ih hr]

theorem splitDot_append_dot (ip fp : List Char) (h : '.' ∉ ip) :
    splitDot (ip ++ '.' :: fp) = ip :: splitDot fp := by
  induction ip with
  | nil => simp [splitDot]
  | cons c rest ih =>
    have hc : c ≠ '.' := fun e => h (by simp [e])
    have hr : '.' ∉ rest := fun m => h (by simp [m])
    simp [splitDot, hc, ih hr]

theorem not_mem_of_digits (x : Char) (hx : x.isDigit = false) (cs : List Char)
    (h : ∀ c ∈ cs, c.isDigit = true) : x ∉ cs := by
  intro m
  have := h x m
  simp [hx] at this


theorem groupThousands_short (cs : List Char) (h : cs.length ≤ 3) : groupThousands cs = cs := by
  match cs, h with
  | [], _ => rfl
  | [_], _ => rfl
  | [_, _], _ => rfl
  | [_, _, _], _ => rfl
  | _ :: _ :: _ :: _ :: _, h => simp at h

theorem isOpen_closeHandle (st : AppState) (h : Nat) (srcs : List Source) :
    World.isOpen { state := st, sources := closeHandle h srcs } h = false := by
  induction srcs generalizing h with
  | nil => simp [World.isOpen, closeHandle]
  | cons s rest ih =>
    cases h with
    | zero => simp [World.isOpen, closeHandle]
    | succ n =>
      have := ih n
      simpa [World.isOpen, closeHandle] using this

theorem length_mk_digits (d : Char) (frac : List Char) :
    (String.mk (d :: '.' :: frac)).length = frac.length + 2 := by
  simp [String.length]

/-! ## The claims -/

/-- C1: for a decoded message whose `pi` field is one digit `d`, a point and the
digits `frac`, handled while the connection `h` is open, `onmessage` ends with status
COMPLETE and `h` closed when `frac` has at least `MAX_DIGITS` (100) digits, and with
status ACTIVE and `h` still open when it has fewer; one hundred digits exactly give
COMPLETE with `h` closed. -/
theorem onmessage_completion (coerce : JSValue → Bool) (h : Nat) (now : Int) (w : World)
    (data : JSValue) (d : Char) (frac : List Char)
    (hopen : w.isOpen h = true)
    (hpi : data.prop "pi" = some (.string (String.mk (d :: '.' :: frac))))
    (hd : d.isDigit = true) (hfrac : ∀ c ∈ frac, c.isDigit = true) :
    (MAX_DIGITS ≤ frac.length →
      (onmessage coerce h (some data) now w).state.status = .COMPLETE ∧
      (onmessage coerce h (some data) now w).isOpen h = false) ∧
    (frac.length < MAX_DIGITS →
      (onmessage coerce h (some data) now w).state.status = .ACTIVE ∧
      (onmessage coerce h (some data) now w).isOpen h = true) ∧
    (frac.length = 100 →
      (onmessage coerce h (some data) now w).state.status = .COMPLETE ∧
      (onmessage coerce h (some data) now w).isOpen h = false) := by
  have _ := hd
  have _ := hfrac
  have len := length_mk_digits d frac
  have big : MAX_DIGITS ≤ frac.length →
      (onmessage coerce h (some data) now w).state.status = .COMPLETE ∧
      (onmessage coerce h (some data) now w).isOpen h = false := by
    intro hL
    have t : precisionReached coerce (.string (String.mk (d :: '.' :: frac))) = some true := by
      simp only [precisionReached, len, MAX_DIGITS] at hL ⊢
      simp
      omega
    simp only [onmessage, hpi, t]
    exact ⟨trivial, isOpen_closeHandle _ _ _⟩
  refine ⟨big, ?_, fun e => big (by simp [MAX_DIGITS, e])⟩
  intro hL
  have t : precisionReached coerce (.string (String.mk (d :: '.' :: frac))) = some false := by
    simp only [precisionReached, len, MAX_DIGITS] at hL ⊢
    simp
    omega
  simp only [onmessage, hpi, t]
  exact ⟨trivial, hopen⟩

/-- C1, at the boundary: the first connection is open and ACTIVE and receives a payload
whose `pi` has exactly one hundred fractional digits. -/
theorem onmessage_completion_witness :
    activeWorld.isOpen 0 = true ∧
    (onmessage (fun _ => false) 0 (some fullPayload) 1000 activeWorld).state.status = .COMPLETE ∧
    (onmessage (fun _ => false) 0 (some fullPayload) 1000 activeWorld).isOpen 0 = false :=
  ⟨by decide,
   (onmessage_completion (fun _ => false) 0 1000 activeWorld fullPayload '3'
      (List.replicate 100 '1') (by decide) rfl (by decide)
      (by intro c hc; rw [List.eq_of_mem_replicate hc]; decide)).2.2 (by simp)⟩

/-- C2, as stated, fails at the boundary: the first connection is open and ACTIVE, its
handler reads the current `lastMessageTime` (`0`), and the error event arrives exactly
5000 ms later; the handler sets status ERROR and an error message. -/
theorem onerror_boundary_counterexample :
    (5000 : Int) - activeWorld.state.lastMessageTime ≤ 5000 ∧
    activeWorld.state.status = .ACTIVE ∧
    (onerror activeWorld.state 0 5000 activeWorld).state.status = .ERROR ∧
    (onerror activeWorld.state 0 5000 activeWorld).state.error ≠ "" := by
  decide

/-- C2, amended: for every state and every error event at time `now` with
`now - lastMessageTime < 5000` (strictly), `lastMessageTime` being the binding the
handler reads, `onerror` leaves status and error message as they were: it sets neither
status ERROR nor an error message. -/
theorem onerror_recent_is_benign (env : AppState) (h : Nat) (now : Int) (w : World)
    (hrecent : now - env.lastMessageTime < 5000) :
    (onerror env h now w).state.status = w.state.status ∧
    (onerror env h now w).state.error = w.state.error := by
  simp [onerror, hrecent]

/-- C2, amended, one millisecond inside the window on the open ACTIVE connection. -/
theorem onerror_recent_is_benign_witness :
    (4999 : Int) - activeWorld.state.lastMessageTime < 5000 ∧
    (onerror activeWorld.state 0 4999 activeWorld).state.status = .ACTIVE ∧
    (onerror activeWorld.state 0 4999 activeWorld).state.error = "" :=
  ⟨by decide, onerror_recent_is_benign activeWorld.state 0 4999 activeWorld (by decide)⟩

/-- C3 fails on the mounted component: the first connection receives a payload with one
hundred fractional digits at time 1000, which sets status COMPLETE and, the number of
digits having changed, makes the next render define a new `connectStream` whose
bindings hold `status = COMPLETE`.  A click on Reconnect (at 2000, say) opens
connection `1` with these bindings and sets status CONNECTING.  An error event on
connection `1` at time 20000 arrives 19000 ms after the last message while the status
is CONNECTING, not COMPLETE; the handler reads the COMPLETE of its bindings at line 88
and only closes the connection: status stays CONNECTING and no error message is
set. -/
theorem stale_status_hides_failure (coerce : JSValue → Bool) :
    (run coerce (mount 0) [.opened 0, .message 0 (some fullPayload) 1000]).map
        (fun s => (s.shown, s.world.state.lastMessageTime, s.world.openHandles))
      = some ((.COMPLETE, ""), 1000, []) ∧
    (run coerce (mount 0) [.opened 0, .message 0 (some fullPayload) 1000, .reconnect]).map
        (fun s => (s.shown, s.world.state.lastMessageTime, s.world.openHandles))
      = some ((.CONNECTING, ""), 1000, [1]) ∧
    (20000 : Int) - 1000 > 5000 ∧
    (run coerce (mount 0)
        [.opened 0, .message 0 (some fullPayload) 1000, .reconnect, .failed 1 20000]).map
        (fun s => (s.shown, s.world.state.lastMessageTime, s.world.openHandles))
      = some ((.CONNECTING, ""), 1000, []) :=
  ⟨rfl, rfl, by decide, rfl⟩

/-- C4: when `JSON.parse` throws, `onmessage` keeps the held `pi` and `circumference`
and sets status ERROR; for the text `{}`, which parses to an object without a `pi`
property, it also sets status ERROR, but only after lines 58-59 have replaced both
held values by `undefined`. -/
theorem onmessage_decode_failure (coerce : JSValue → Bool) (h : Nat) (now : Int) (w : World) :
    ((onmessage coerce h none now w).state.pi = w.state.pi ∧
     (onmessage coerce h none now w).state.circumference = w.state.circumference ∧
     (onmessage coerce h none now w).state.status = .ERROR) ∧
    ((onmessage coerce h (some (.object [])) now w).state.pi = .undefined ∧
     (onmessage coerce h (some (.object [])) now w).state.circumference = .undefined ∧
     (onmessage coerce h (some (.object [])) now w).state.status = .ERROR) ∧
    activeWorld.state.pi = .string "3" :=
  ⟨⟨rfl, rfl, rfl⟩, ⟨rfl, rfl, rfl⟩, rfl⟩

/-- C5 fails on the mounted component: after the mount and the `open` event one
connection is open (handle `0`) and status is ACTIVE; a click on Reconnect then runs
the `connectStream` of the first render, whose `eventSource` is `null`, so handle `0`
stays open next to the new handle `1`. -/
theorem reconnect_leaves_two_open (coerce : JSValue → Bool) (t0 : Int) :
    (run coerce (mount t0) [.opened 0]).map
        (fun s => (s.world.state.status, s.world.openHandles)) = some (.ACTIVE, [0]) ∧
    (run coerce (mount t0) [.opened 0, .reconnect]).map
        (fun s => (s.world.state.status, s.world.openHandles)) = some (.CONNECTING, [0, 1]) :=
  ⟨rfl, rfl⟩

/-- C6: for digits `ip` (at least one) and digits `fp`, `formatNumber` of `ip` is `ip`
with a `,` between every group of three digits counted from the right, which is `ip`
itself up to three digits; and when `fp` is not empty, `formatNumber` of `ip.fp` is
the grouped `ip`, a point, and `fp` as given. -/
theorem formatNumber_groups (ip fp : List Char) (hne : ip ≠ [])
    (hi : ∀ c ∈ ip, c.isDigit = true) (hf : ∀ c ∈ fp, c.isDigit = true) :
    formatNumber (String.mk ip) = String.mk (groupThousands ip) ∧
    (ip.length ≤ 3 → formatNumber (String.mk ip) = String.mk ip) ∧
    (fp ≠ [] →
      formatNumber (String.mk (ip ++ '.' :: fp))
        = String.mk (groupThousands ip ++ '.' :: fp)) := by
  have ei : 'e' ∉ ip := not_mem_of_digits 'e' (by decide) ip hi
  have ef : 'e' ∉ fp := not_mem_of_digits 'e' (by decide) fp hf
  have di : '.' ∉ ip := not_mem_of_digits '.' (by decide) ip hi
  have df : '.' ∉ fp := not_mem_of_digits '.' (by decide) fp hf
  have first : formatNumber (String.mk ip) = String.mk (groupThousands ip) := by
    simp [formatNumber, hne, ei, formatParts, splitDot_of_no_dot ip di,
      replaceThousands_none_digits ip hi, groupThousands_eq_groupByLength]
  refine ⟨first, ?_, ?_⟩
  · intro hshort
    rw [first, groupThousands_short ip hshort]
  · intro hfp
    have e2 : 'e' ∉ ip ++ '.' :: fp := by simp [ei, ef]
    simp [formatNumber, e2, formatParts, splitDot_append_dot ip fp di, splitDot_of_no_dot fp df,
      replaceThousands_none_digits ip hi, groupThousands_eq_groupByLength, hfp]

/-- C6 on the example of the specification. -/
theorem formatNumber_groups_witness :
    formatNumber "4368539720.1234" = "4,368,539,720.1234" ∧
    formatNumber "4368539720" = "4,368,539,720" :=
  ⟨(formatNumber_groups "4368539720".data "1234".data (by decide) (by decide) (by decide)).2.2
      (by decide),
   (formatNumber_groups "4368539720".data "1234".data (by decide) (by decide) (by decide)).1⟩

/-- C7 fails on the code: for `pi` made of one digit `d`, a point and the digits
`frac` (any number of them, so also for fewer than one hundred), the split yields the
integer segment `d.` and the highlighted segment `frac`, but the padding segment is
empty: `paddingZeros` is what is left of the fractional digits after the first
`currentPrecision` of them, and `currentPrecision` is their number. -/
theorem piSegments_digits (d : Char) (frac : List Char)
    (hd : d.isDigit = true) (hfrac : ∀ c ∈ frac, c.isDigit = true) :
    piSegments (String.mk (d :: '.' :: frac))
      = { integerPart := String.mk [d, '.']
          calculatedDigits := String.mk frac
          paddingZeros := "" } := by
  have dd : d ≠ '.' := by
    intro e
    rw [e] at hd
    exact absurd hd (by decide)
  have df : '.' ∉ frac := not_mem_of_digits '.' (by decide) frac hfrac
  have prec : currentPrecision (String.mk (d :: '.' :: frac)) = frac.length := by
    simp only [currentPrecision, length_mk_digits]
    split <;> omega
  simp [piSegments, prec, splitDot, dd, splitDot_of_no_dot frac df]

/-- C7 on the example of the specification: `pi = "3.14159"` gives the five
highlighted digits and no padding character, where the claim has 95. -/
theorem piSegments_digits_witness :
    piSegments "3.14159"
      = { integerPart := "3.", calculatedDigits := "14159", paddingZeros := "" } ∧
    (piSegments "3.14159").paddingZeros.length = 0 ∧
    (piSegments "3.14159").paddingZeros.length ≠ MAX_DIGITS - 5 :=
  ⟨piSegments_digits '3' "14159".data (by decide) (by decide), by decide, by decide⟩

/-- C8 fails on the mounted component: a message that `JSON.parse` rejects puts the
open connection in status ERROR with an error message, and the next well-formed
message sets status ACTIVE without clearing the message, so the banner is shown while
status is ACTIVE. -/
theorem banner_outlives_error (coerce : JSValue → Bool) (t0 t1 t2 : Int) :
    (run coerce (mount t0) [.opened 0, .message 0 none t1]).map System.shown
      = some (.ERROR, "Failed to parse incoming data.") ∧
    (run coerce (mount t0)
        [.opened 0, .message 0 none t1, .message 0 (some shortPayload) t2]).map System.shown
      = some (.ACTIVE, "Failed to parse incoming data.") :=
  ⟨rfl, rfl⟩

/-- C9, as stated, fails: on the component mounted at time `0`, a reconnect at a later
time, say 60000, leaves `lastMessageTime` at `0`, and an error event on the new
connection (handle `1`) at time 60001 is classified against `0`: status ERROR. -/
theorem connectStream_timestamp_counterexample :
    (connectStream activeWorld.state false activeWorld).state.lastMessageTime = 0 ∧
    (connectStream activeWorld.state false activeWorld).state.lastMessageTime ≠ 60000 ∧
    (run (fun _ => false) (mount 0) [.opened 0, .reconnect, .failed 1 60001]).map System.shown
      = some (.ERROR, "Connection lost. Please ensure the worker is running.") := by
  decide

/-- C9, amended: `connectStream` does not reset `lastMessageTime`: for every prior
state, immediately after the call it holds the value it held before the call, whether
or not the EventSource constructor throws. -/
theorem connectStream_keeps_lastMessageTime (env : AppState) (ctorThrows : Bool) (w : World) :
    (connectStream env ctorThrows w).state.lastMessageTime = w.state.lastMessageTime := by
  cases ctorThrows <;> cases h : env.eventSource <;> simp [connectStream, h]

/-- C10: for the empty string and for every string that contains the character `e`,
`formatNumber` returns its argument unchanged. -/
theorem formatNumber_passthrough (s : String) (h : s = "" ∨ 'e' ∈ s.data) :
    formatNumber s = s := by
  unfold formatNumber
  rcases h with h | h
  · subst h; simp
  · simp [h]

/-- C10 on a value in scientific notation. -/
theorem formatNumber_passthrough_witness :
    formatNumber "4.3685397201234e+9" = "4.3685397201234e+9" ∧ formatNumber "" = "" :=
  ⟨formatNumber_passthrough "4.3685397201234e+9" (Or.inr (by decide)),
   formatNumber_passthrough "" (Or.inl rfl)⟩
